import Mathlib

/-!
Verification of the euromedia-backend authentication and 2FA subsystem.

Shallow embedding of the code in src/server/src: the error taxonomy
(errors/http-errors), the JWT layer (jsonwebtoken sign/verify as invoked by
the use cases), the user record (models/user.model.ts), the credential store
(mutate-then-save over a list of user records), and the auth and 2FA use
cases (use-cases/auth.use-case.ts, use-cases/twoFAUseCase.ts).

Cryptographic collaborators are embedded at the interface level: bcrypt
hashing is an injective tagging function, AES-GCM secret storage is a
reversible container, and TOTP verification is an abstract boolean oracle
passed as a parameter, since no claim depends on the internals of these
libraries.
-/

deriving instance DecidableEq for Except

namespace Euromedia

/-- Error taxonomy of errors/http-errors as thrown by the use cases.
The HTTP layer maps badRequest to 400, unauthorized to 401, notFound to 404,
conflict to 409. A zodError is an uncaught ZodError from schema.parse and a
jwtLibError is an uncaught jsonwebtoken error; both surface as 500, not as
one of the four mapped kinds. -/
inductive AppError where
  | badRequest (msg : String)
  | unauthorized (msg : String)
  | notFound (msg : String)
  | conflict (msg : String)
  | zodError (msg : String)
  | jwtLibError (msg : String)
deriving DecidableEq

/-- The four JWT signing secrets of config/env.ts: jwt.acs, jwt.rfs, jwt.p2a,
jwt.eml. They are distinct configuration entries; note there is no separate
secret for password-reset tokens, both email flows use jwt.eml. -/
inductive JwtKey where
  | acs
  | rfs
  | p2a
  | eml
deriving DecidableEq

/-- A token produced by jsonwebtoken sign: the id claim, the optional type
claim (the email and password-reset tokens carry none), the secret it was
signed with, and the absolute expiry instant (sign time plus ttl). -/
structure SignedToken where
  id : String
  ttype : Option String
  key : JwtKey
  exp : Nat
deriving DecidableEq

/-- jsonwebtoken sign with payload fields, a secret and a ttl in seconds. -/
def jwtSign (id : String) (ttype : Option String) (key : JwtKey) (now ttl : Nat) : SignedToken :=
  { id := id, ttype := ttype, key := key, exp := now + ttl }

/-- Failure modes of jsonwebtoken verify. -/
inductive JwtError where
  | badSignature
  | expired
  | noKey
deriving DecidableEq

/-- Error message text as jsonwebtoken reports it. -/
def jwtErrMsg : JwtError → String
  | .badSignature => "JsonWebTokenError - invalid signature"
  | .expired => "TokenExpiredError - jwt expired"
  | .noKey => "JsonWebTokenError - secret or public key must be provided"

/-- jsonwebtoken verify: succeeds exactly when the token was signed with the
presented secret and has not expired. Passing no secret (the empty string in
the source) always throws. -/
def jwtVerifyE (t : SignedToken) (key? : Option JwtKey) (now : Nat) :
    Except JwtError SignedToken :=
  match key? with
  | none => .error .noKey
  | some k =>
    if t.key = k then
      if t.exp ≤ now then .error .expired else .ok t
    else .error .badSignature

/-- The three token types handled by AuthUseCase.decodeUserId. -/
inductive ExpectedType where
  | accessToken
  | refreshToken
  | pending2FA
deriving DecidableEq

/-- The type claim string embedded for each token type. -/
def ExpectedType.str : ExpectedType → String
  | .accessToken => "access-token"
  | .refreshToken => "refresh-token"
  | .pending2FA => "2fa_pending"

/-- The secret each token type is signed with at its sign sites:
generateTokens uses jwt.acs and jwt.rfs, the pending-2FA sign sites in
LoginUseCase and Initiate2FAUseCase use jwt.p2a. -/
def keyFor : ExpectedType → JwtKey
  | .accessToken => .acs
  | .refreshToken => .rfs
  | .pending2FA => .p2a

/-- A token signed the way the source signs that type. -/
def signTyped (A : ExpectedType) (id : String) (now ttl : Nat) : SignedToken :=
  jwtSign id (some A.str) (keyFor A) now ttl

/-- AuthUseCase.decodeUserId (auth.use-case.ts lines 115 to 142): selects
jwt.acs for access-token and jwt.p2a for 2fa_pending; for refresh-token the
key variable keeps its empty-string initial value, so verification always
throws. After verify, the embedded type claim must equal the expected type.
Every failure is caught and rethrown as UnauthorizedError with the message
built from the caught error. -/
def decodeUserId (token : SignedToken) (expectedType : ExpectedType) (now : Nat) :
    Except AppError String :=
  let key? : Option JwtKey :=
    match expectedType with
    | .accessToken => some .acs
    | .pending2FA => some .p2a
    | .refreshToken => none
  match jwtVerifyE token key? now with
  | .error e => .error (.unauthorized ("Token verification error: " ++ jwtErrMsg e))
  | .ok payload =>
    if payload.ttype = some expectedType.str then .ok payload.id
    else .error (.unauthorized "Token verification error: UnauthorizedError - Wrong token type.")

/-- Access and refresh token pair returned by AuthUseCase.generateTokens. -/
structure TokenPair where
  refreshToken : SignedToken
  accessToken : SignedToken
deriving DecidableEq

/-- AuthUseCase.generateTokens (auth.use-case.ts lines 63 to 75): a
refresh-token signed with jwt.rfs for 30 days and an access-token signed
with jwt.acs for 300 seconds. -/
def generateTokens (id : String) (now : Nat) : TokenPair :=
  { refreshToken := jwtSign id (some "refresh-token") .rfs now 2592000
    accessToken := jwtSign id (some "access-token") .acs now 300 }

/-- RegisterUseCase.sendVerificationEmail (auth.use-case.ts lines 234 to
250): the email verification token is signed with jwt.eml for one hour and
carries no type claim. -/
def makeEmailVerificationToken (id : String) (now : Nat) : SignedToken :=
  jwtSign id none .eml now 3600

/-- ResetPasswordRequestUseCase.execute (auth.use-case.ts lines 294 to 307):
the password reset token is signed with jwt.eml for one hour and carries no
type claim, exactly like the email verification token. -/
def makeResetPasswordToken (id : String) (now : Nat) : SignedToken :=
  jwtSign id none .eml now 3600

/-- Encrypted 2FA secret triple of models/user.model.ts TwoFASecretSchema.
The AES-GCM collaborator is embedded as a reversible container: the
ciphertext field holds the recoverable secret and iv and tag are carried
along as stored in the record. No claim exercises the tamper path. -/
structure TwoFASecret where
  ciphertext : String
  iv : String
  tag : String
deriving DecidableEq

/-- Setup2FAUseCase.encrypt2FASecret at the collaborator level: the secret,
the fresh iv from randomBytes, and the authentication tag. -/
def encrypt2FASecret (secret iv : String) : TwoFASecret :=
  { ciphertext := secret, iv := iv, tag := "tag" }

/-- Verify2FAUseCase.decrypt2FASecret at the collaborator level: recovers
the stored secret from the triple. -/
def decrypt2FASecret (e : TwoFASecret) : String :=
  e.ciphertext

/-- The twoFA sub-record of models/user.model.ts TwoFASchema (lines 88 to
101): is2FASetUp defaults false, twoFASecret is optional, last2FAVerifiedAt
is an optional date, lockedUntil defaults null, recoveryCodes defaults
empty, failed2FAAttempts defaults 0. -/
structure TwoFAState where
  is2FASetUp : Bool := false
  twoFASecret : Option TwoFASecret := none
  last2FAVerifiedAt : Option Nat := none
  lockedUntil : Option Nat := none
  recoveryCodes : List String := []
  failed2FAAttempts : Nat := 0
deriving DecidableEq

/-- The meta sub-record of a user. -/
structure UserMeta where
  firstname : String
  lastname : String
deriving DecidableEq

/-- The auth sub-record of a user. -/
structure UserAuth where
  email : String
  password : String
  verified : Bool
deriving DecidableEq

/-- A persisted user document of models/user.model.ts. -/
structure UserRec where
  id : String
  meta : UserMeta
  auth : UserAuth
  twoFA : TwoFAState
deriving DecidableEq

/-- The credential store: the collection of persisted user documents.
Mongoose save on a loaded document is embedded as replacing the record with
the matching id. -/
abbrev DB := List UserRec

/-- UserService.getUserById at the store level. -/
def findById (db : DB) (id : String) : Option UserRec :=
  db.find? (fun u => u.id = id)

/-- UserService.getUserByEmail at the store level. -/
def findByEmail (db : DB) (email : String) : Option UserRec :=
  db.find? (fun u => u.auth.email = email)

/-- Persisting a mutated loaded document: user.save. -/
def saveUser (db : DB) (u : UserRec) : DB :=
  db.map (fun v => if v.id = u.id then u else v)

/-- Result of a use-case step that may save before failing: the value or the
error, together with the store state left behind. -/
inductive Res (α : Type) where
  | ok (a : α) (db : DB)
  | err (e : AppError) (db : DB)
deriving DecidableEq

/-- Whether a result is a success. -/
def isOkRes {α : Type} : Res α → Bool
  | .ok _ _ => true
  | .err _ _ => false

/-- The error carried by a failed result. -/
def resErr {α : Type} : Res α → Option AppError
  | .ok _ _ => none
  | .err e _ => some e

/-- The store state a result leaves behind. -/
def resDb {α : Type} : Res α → DB
  | .ok _ db => db
  | .err _ db => db

/-- The bcrypt collaborator: hashing is embedded as injective tagging and
compare recognises exactly the hash of the submitted plaintext. -/
def bcryptHash (plain : String) : String :=
  "bcrypt$" ++ plain

/-- bcrypt compare of a plaintext against a stored hash. -/
def bcryptCompare (plain hashed : String) : Bool :=
  hashed = bcryptHash plain

/-- mongodb ObjectId.isValid for string input: a 24 character hex string. -/
def objectIdIsValid (s : String) : Bool :=
  s.data.length = 24 && s.data.all (fun c => "0123456789abcdefABCDEF".data.contains c)

/-- AuthUseCase.checkExistance at key type id and issue absence, the flavour
every 2FA use case calls (auth.use-case.ts lines 31 to 61): an invalid id is
a BadRequestError, a missing user a NotFoundError. -/
def checkExistance (db : DB) (id : String) : Except AppError UserRec :=
  if objectIdIsValid id then
    match findById db id with
    | some u => .ok u
    | none => .error (.notFound "User not found.")
  else .error (.badRequest "Invalid id value.")

/-- AuthUseCase.checkExistance at key type email and issue absence, as
called by LoginUseCase and ResetPassword flows. -/
def checkExistanceByEmail (db : DB) (email : String) : Except AppError UserRec :=
  match findByEmail db email with
  | some u => .ok u
  | none => .error (.notFound "User not found.")

/-- An Authorization header value, already split at the blank: the scheme
word and the token part when present. -/
structure Header where
  scheme : String
  tokenPart : Option SignedToken
deriving DecidableEq

/-- AuthUseCase.readAuthHeader (auth.use-case.ts lines 93 to 104): a missing
header is a BadRequestError, as is a scheme other than Bearer or a missing
token part. -/
def readAuthHeader (h? : Option Header) : Except AppError SignedToken :=
  match h? with
  | none => .error (.badRequest "Invalid header.")
  | some h =>
    match h.tokenPart with
    | some t => if h.scheme = "Bearer" then .ok t
                else .error (.badRequest "Invalid header scheme or missing token.")
    | none => .error (.badRequest "Invalid header scheme or missing token.")

/-- JavaScript truthiness of an optional string argument, as tested by the
if and else-if of Verify2FAUseCase.decideStrategy: absent and empty strings
are falsy. -/
def truthy : Option String → Bool
  | none => false
  | some s => !s.isEmpty

/-- The loop of Verify2FAUseCase.verifyRecoveryCode (twoFAUseCase.ts lines
448 to 461): compare the submitted code against each stored hash in order
and splice out the first match; no match at all is a failure. -/
def consumeRecoveryCode (code : String) : List String → Option (List String)
  | [] => none
  | h :: t =>
    if bcryptCompare code h then some t
    else (consumeRecoveryCode code t).map (fun rest => h :: rest)

/-- Update of the recoveryCodes field on a loaded user document. -/
def setCodes (u : UserRec) (codes : List String) : UserRec :=
  { u with twoFA := { u.twoFA with recoveryCodes := codes } }

/-- Verify2FAUseCase.verifyRecoveryCode (twoFAUseCase.ts lines 442 to 464):
on a match the code is removed and the document saved before returning; on
no match an UnauthorizedError is thrown with the store untouched. -/
def verifyRecoveryCode (db : DB) (code : String) (user : UserRec) : Res Bool :=
  match consumeRecoveryCode code user.twoFA.recoveryCodes with
  | some rest => .ok true (saveUser db (setCodes user rest))
  | none => .err (.unauthorized "Invalid TOTP token or recovery code.") db

/-- Verify2FAUseCase.getDecryptedSecret (twoFAUseCase.ts lines 398 to 405). -/
def getDecryptedSecret (user : UserRec) : Except AppError String :=
  match user.twoFA.twoFASecret with
  | none => .error (.unauthorized "2FA is not active.")
  | some enc => .ok (decrypt2FASecret enc)

/-- Verify2FAUseCase.verify2FACode (twoFAUseCase.ts lines 475 to 495). The
totp parameter is the speakeasy totp.verify oracle over the decrypted secret
and the submitted code at the current instant. On a wrong code the counter
is incremented only on the in-memory object and the error is thrown before
any save, so the store is returned unchanged; on success the flags are
updated and the document saved. Note that neither branch reads or writes
lockedUntil and the failure branch never saves nor sets a lockout. -/
def verify2FACode (totp : String → String → Bool) (db : DB) (code : String)
    (id : String) (now : Nat) : Res Unit :=
  match checkExistance db id with
  | .error e => .err e db
  | .ok user =>
    match getDecryptedSecret user with
    | .error e => .err e db
    | .ok secret =>
      if totp secret code then
        let user1 := { user with twoFA := { user.twoFA with
          is2FASetUp := true
          failed2FAAttempts := 0
          last2FAVerifiedAt := some now } }
        .ok () (saveUser db user1)
      else
        let _inMemory := { user with twoFA := { user.twoFA with
          failed2FAAttempts := user.twoFA.failed2FAAttempts + 1 } }
        .err (.unauthorized "Wrong 2FA token.") db

/-- Verify2FAUseCase.decideStrategy (twoFAUseCase.ts lines 407 to 418): the
subject user is fetched, then a truthy TOTP code selects the TOTP path, else
a truthy recovery code selects the recovery path, and with neither the
method returns without doing anything at all. -/
def decideStrategy (totp : String → String → Bool) (db : DB)
    (totpCode? recoveryCode? : Option String) (id : String) (now : Nat) : Res Unit :=
  match checkExistance db id with
  | .error e => .err e db
  | .ok user =>
    if truthy totpCode? then
      verify2FACode totp db (totpCode?.getD "") id now
    else if truthy recoveryCode? then
      match verifyRecoveryCode db (recoveryCode?.getD "") user with
      | .ok _ db1 => .ok () db1
      | .err e db1 => .err e db1
    else .ok () db

/-- The Zod schema of Verify2FAUseCase.execute: authHeader is required and a
present twoFACode must be 6 characters. The recovery code is not validated
at all, because the schema field is named recoveryCodes while the parsed
input carries the key recoveryCode, so Zod strips the unknown key and the
raw argument is forwarded to decideStrategy. -/
def verifySchemaParse (authHeader : Option Header) (twoFACode? : Option String) :
    Except AppError Unit :=
  match authHeader with
  | none => .error (.zodError "authHeader: Required")
  | some _ =>
    match twoFACode? with
    | some t =>
      if t.data.length = 6 then .ok ()
      else .error (.zodError "twoFACode: String must contain exactly 6 characters")
    | none => .ok ()

/-- Verify2FAUseCase.execute (twoFAUseCase.ts lines 350 to 360): parse,
read the bearer token, decode the subject id expecting 2fa_pending, run
decideStrategy, and return a fresh token pair. -/
def verify2FAExecute (totp : String → String → Bool) (db : DB)
    (authHeader : Option Header) (twoFACode? recoveryCode? : Option String)
    (now : Nat) : Res TokenPair :=
  match verifySchemaParse authHeader twoFACode? with
  | .error e => .err e db
  | .ok _ =>
    match readAuthHeader authHeader with
    | .error e => .err e db
    | .ok tok =>
      match decodeUserId tok .pending2FA now with
      | .error e => .err e db
      | .ok userId =>
        match decideStrategy totp db twoFACode? recoveryCode? userId now with
        | .err e db1 => .err e db1
        | .ok _ db1 => .ok (generateTokens userId now) db1

/-- Application name from config, used in OTP Auth URL labels. -/
def appName : String := "euromedia"

/-- Setup2FAUseCase.formatUsername. -/
def formatUsername (u : UserRec) : String :=
  u.meta.firstname ++ " " ++ u.meta.lastname

/-- Setup2FAUseCase.generateOTPAuthURL via speakeasy.otpauthURL. -/
def generateOTPAuthURL (secret username : String) : String :=
  "otpauth://totp/" ++ appName ++ " - " ++ username ++ "?secret=" ++ secret
    ++ "&issuer=" ++ appName

/-- Setup2FAUseCase.execute (twoFAUseCase.ts lines 116 to 128): parse, read
the bearer token, decode expecting 2fa_pending, fetch the user, then
unconditionally generate and store a fresh encrypted secret (first save),
build the OTP Auth URL, generate recovery codes, and push their hashes onto
the existing stored list (second save). The freshSecret, iv and freshCodes
parameters stand for the random collaborators. There is no is2FASetUp guard
anywhere in this use case. -/
def setup2FAExecute (db : DB) (authHeader : Option Header) (now : Nat)
    (freshSecret iv : String) (freshCodes : List String) :
    Res (String × List String) :=
  match authHeader with
  | none => .err (.zodError "authHeader: Required") db
  | some _ =>
    match readAuthHeader authHeader with
    | .error e => .err e db
    | .ok tok =>
      match decodeUserId tok .pending2FA now with
      | .error e => .err e db
      | .ok userId =>
        match checkExistance db userId with
        | .error e => .err e db
        | .ok user =>
          let user1 := { user with twoFA := { user.twoFA with
            twoFASecret := some (encrypt2FASecret freshSecret iv) } }
          let db1 := saveUser db user1
          let otpAuthURL := generateOTPAuthURL freshSecret (formatUsername user)
          let user2 := setCodes user1
            (user1.twoFA.recoveryCodes ++ freshCodes.map bcryptHash)
          let db2 := saveUser db1 user2
          .ok (otpAuthURL, freshCodes) db2

/-- Initiate2FAUseCase.execute (twoFAUseCase.ts lines 533 to 556): decode
the access token, fetch the user, reject with BadRequestError when
is2FASetUp is already true, otherwise issue a 720 second 2fa_pending token
signed with jwt.p2a. -/
def initiate2FAExecute (db : DB) (accessTokenHeader : Option Header) (now : Nat) :
    Res SignedToken :=
  match accessTokenHeader with
  | none => .err (.zodError "accessTokenHeader: Required") db
  | some _ =>
    match readAuthHeader accessTokenHeader with
    | .error e => .err e db
    | .ok tok =>
      match decodeUserId tok .accessToken now with
      | .error e => .err e db
      | .ok userId =>
        match checkExistance db userId with
        | .error e => .err e db
        | .ok user =>
          if user.twoFA.is2FASetUp then
            .err (.badRequest "2FA is already setup.") db
          else
            .ok (jwtSign userId (some "2fa_pending") .p2a now 720) db

/-- Deinit2FAUseCase.execute (twoFAUseCase.ts lines 602 to 615): decode the
access token, fetch the user, then unconditionally clear is2FASetUp,
twoFASecret, last2FAVerifiedAt, recoveryCodes and failed2FAAttempts and
save. There is no guard for 2FA being already inactive and the lockedUntil
field is not touched. -/
def deinit2FAExecute (db : DB) (accessTokenHeader : Option Header) (now : Nat) :
    Res Unit :=
  match accessTokenHeader with
  | none => .err (.zodError "accessTokenHeader: Required") db
  | some _ =>
    match readAuthHeader accessTokenHeader with
    | .error e => .err e db
    | .ok tok =>
      match decodeUserId tok .accessToken now with
      | .error e => .err e db
      | .ok userId =>
        match checkExistance db userId with
        | .error e => .err e db
        | .ok user =>
          let user1 := { user with twoFA := { user.twoFA with
            is2FASetUp := false
            twoFASecret := none
            last2FAVerifiedAt := none
            recoveryCodes := []
            failed2FAAttempts := 0 } }
          .ok () (saveUser db user1)

/-- Shallow model of the Zod email format check used by loginSchema. -/
def emailFormatOk (e : String) : Bool :=
  e.data.contains (Char.ofNat 64)

/-- The shared loginSchema of AuthUseCase: an email-formatted string and a
password of at least 8 characters; a violation is an uncaught ZodError. -/
def loginSchemaParse (email password : String) : Except AppError Unit :=
  if emailFormatOk email && decide (8 ≤ password.data.length) then .ok ()
  else .error (.zodError "loginSchema")

/-- Outcome of LoginUseCase.execute: either the 2fa_pending token alone or a
fresh access and refresh pair, never both. -/
inductive LoginResult where
  | pending (tok : SignedToken)
  | tokens (pair : TokenPair)
deriving DecidableEq

/-- LoginUseCase.execute with decideStrategy (auth.use-case.ts lines 372 to
411): parse, fetch the user by email, compare the password hash, then when
is2FASetUp is true sign a 420 second 2fa_pending token with jwt.p2a, else
return generateTokens. Login performs no save. -/
def loginExecute (db : DB) (email password : String) (now : Nat) :
    Except AppError LoginResult :=
  match loginSchemaParse email password with
  | .error e => .error e
  | .ok _ =>
    match checkExistanceByEmail db email with
    | .error e => .error e
    | .ok user =>
      if bcryptCompare password user.auth.password then
        if user.twoFA.is2FASetUp then
          .ok (.pending (jwtSign user.id (some "2fa_pending") .p2a now 420))
        else
          .ok (.tokens (generateTokens user.id now))
      else .error (.unauthorized "Incorrect password.")

/-- ResetPasswordUseCase.execute (auth.use-case.ts lines 338 to 369): parse
the body with loginSchema, fetch the user by email, require the
authorization header, verify the second word of the header with jwt.eml
directly through jsonwebtoken with no type check and no catch, re-fetch the
user by the decoded id, hash the new password and save. A verification
failure surfaces as the raw library error, and any token signed with
jwt.eml is accepted, whatever purpose it was issued for. -/
def resetPasswordExecute (db : DB) (email password : String)
    (authHeader : Option Header) (now : Nat) : Res Unit :=
  match loginSchemaParse email password with
  | .error e => .err e db
  | .ok _ =>
    match checkExistanceByEmail db email with
    | .error e => .err e db
    | .ok _ =>
      match authHeader with
      | none => .err (.unauthorized "Verification token missing.") db
      | some h =>
        match h.tokenPart with
        | none => .err (.jwtLibError "jwt must be provided") db
        | some tok =>
          match jwtVerifyE tok (some .eml) now with
          | .error e => .err (.jwtLibError (jwtErrMsg e)) db
          | .ok payload =>
            match findById db payload.id with
            | none => .err (.notFound "User not found.") db
            | some idUser =>
              let idUser1 := { idUser with auth := { idUser.auth with
                password := bcryptHash password } }
              .ok () (saveUser db idUser1)

/-- A valid ObjectId used by the concrete scenarios. -/
def uidA : String := "0123456789abcdef01234567"

/-- Encrypted secret stored for the concrete scenario user. -/
def secretEncA : TwoFASecret := encrypt2FASecret "SECRETBASE32" "iv1"

/-- Concrete scenario user: 2FA set up but not yet verified, one recovery
code hash in store, three failed attempts so far, not locked. -/
def userA : UserRec :=
  { id := uidA
    meta := { firstname := "Hannah", lastname := "Cybermann" }
    auth := { email := "hannah@test.eu"
              password := bcryptHash "Das_einfaches_leben"
              verified := true }
    twoFA := { is2FASetUp := false
               twoFASecret := some secretEncA
               last2FAVerifiedAt := none
               lockedUntil := none
               recoveryCodes := [bcryptHash "RECOVCODE1"]
               failed2FAAttempts := 3 } }

/-- Store holding just the scenario user. -/
def dbA : DB := [userA]

/-- The scenario user with the is2FASetUp flag already true. -/
def userSetUp : UserRec :=
  { userA with twoFA := { userA.twoFA with is2FASetUp := true } }

/-- The scenario user currently locked out until instant 999999. -/
def userLocked : UserRec :=
  { userA with twoFA := { userA.twoFA with lockedUntil := some 999999 } }

/-- The scenario user with 2FA fully inactive but a lockout timestamp left
over in the record. -/
def userDisabled : UserRec :=
  { userA with twoFA := { is2FASetUp := false
                          twoFASecret := none
                          last2FAVerifiedAt := none
                          lockedUntil := some 999
                          recoveryCodes := []
                          failed2FAAttempts := 0 } }

/-- A well-formed pending-2FA authorization header for a given subject,
carrying the token Initiate2FAUseCase issues at instant t0. -/
def pendingHdrFor (uid : String) (t0 : Nat) : Option Header :=
  some { scheme := "Bearer"
         tokenPart := some (jwtSign uid (some "2fa_pending") .p2a t0 720) }

/-- Pending-2FA header for the scenario user, issued at instant 0. -/
def pendingHdrA : Option Header := pendingHdrFor uidA 0

/-- Access-token header for the scenario user, issued at instant 0. -/
def accessHdrA : Option Header :=
  some { scheme := "Bearer"
         tokenPart := some (jwtSign uidA (some "access-token") .acs 0 300) }

/-- TOTP oracle that accepts every code: the submitted code is objectively
correct. -/
def totpAll : String → String → Bool := fun _ _ => true

/-- TOTP oracle that rejects every code: the submitted code is wrong. -/
def totpNone : String → String → Bool := fun _ _ => false

/-- One Verify2FA attempt with a wrong TOTP code, returning the store it
leaves behind. -/
def failedAttempt (db : DB) : DB :=
  resDb (verify2FAExecute totpNone db pendingHdrA (some "000000") none 5)

/-- bcrypt compare succeeds exactly on the hash of the submitted code. -/
theorem bcryptCompare_eq_true_iff (X h : String) :
    bcryptCompare X h = true ↔ h = bcryptHash X := by
  simp [bcryptCompare]

/-- The recovery loop finds nothing exactly when the hash of the submitted
code does not occur among the stored hashes. -/
theorem consumeRecoveryCode_eq_none_iff (X : String) (l : List String) :
    consumeRecoveryCode X l = none ↔ l.count (bcryptHash X) = 0 := by
  induction l with
  | nil => simp [consumeRecoveryCode]
  | cons h t ih =>
    by_cases hc : h = bcryptHash X
    · have hb : bcryptCompare X h = true := by simp [bcryptCompare, hc]
      simp only [consumeRecoveryCode, hb, if_true]
      simp [hc, List.count_cons]
    · have hb : bcryptCompare X h = false := by simp [bcryptCompare, hc]
      simp only [consumeRecoveryCode, hb, Bool.false_eq_true, if_false,
        Option.map_eq_none']
      simp [hc, List.count_cons, ih]

/-- The recovery loop removes exactly one occurrence of the matched hash. -/
theorem consumeRecoveryCode_count (X : String) (l rest : List String)
    (h : consumeRecoveryCode X l = some rest) :
    rest.count (bcryptHash X) + 1 = l.count (bcryptHash X) := by
  induction l generalizing rest with
  | nil => simp [consumeRecoveryCode] at h
  | cons a t ih =>
    by_cases hc : a = bcryptHash X
    · have hb : bcryptCompare X a = true := by simp [bcryptCompare, hc]
      simp only [consumeRecoveryCode, hb, if_true, Option.some.injEq] at h
      subst h
      simp [hc, List.count_cons]
    · have hb : bcryptCompare X a = false := by simp [bcryptCompare, hc]
      simp only [consumeRecoveryCode, hb, Bool.false_eq_true, if_false,
        Option.map_eq_some'] at h
      obtain ⟨rest0, hrest0, hcons⟩ := h
      subst hcons
      simp [List.count_cons, hc, ih rest0 hrest0]

/-- A found user document satisfies the lookup predicate. -/
theorem findById_id (db : DB) (uid : String) (u : UserRec)
    (h : findById db uid = some u) : u.id = uid := by
  have hp := List.find?_some h
  simpa using hp

/-- Saving a document whose id was found replaces what every further lookup
of that id returns. -/
theorem findById_saveUser (db : DB) (uid : String) (u v : UserRec)
    (hfind : findById db uid = some u) (hv : v.id = uid) :
    findById (saveUser db v) uid = some v := by
  induction db with
  | nil => simp [findById] at hfind
  | cons a t ih =>
    by_cases ha : a.id = uid
    · have hav : a.id = v.id := by rw [ha, hv]
      simp [findById, saveUser, List.find?, hav, hv]
    · have hav : ¬ a.id = v.id := by rw [hv]; exact ha
      have hfind1 : findById t uid = some u := by
        simpa [findById, List.find?, ha] using hfind
      have iht := ih hfind1
      simpa [findById, saveUser, List.find?, hav, ha] using iht

/-- Under a well-formed unexpired pending-2FA header, no TOTP code, and a
truthy recovery code, Verify2FAUseCase.execute reduces to the recovery
branch over the stored hashes of the subject user. -/
theorem verify2FAExecute_recovery (totp : String → String → Bool) (db : DB)
    (user : UserRec) (uid X : String) (t0 now : Nat)
    (hvalid : objectIdIsValid uid = true)
    (hfind : findById db uid = some user)
    (hX : X.isEmpty = false)
    (hexp : now < t0 + 720) :
    verify2FAExecute totp db (pendingHdrFor uid t0) none (some X) now =
      match consumeRecoveryCode X user.twoFA.recoveryCodes with
      | some rest => .ok (generateTokens uid now) (saveUser db (setCodes user rest))
      | none => .err (.unauthorized "Invalid TOTP token or recovery code.") db := by
  have hne : ¬ (t0 + 720 ≤ now) := by omega
  simp only [verify2FAExecute, pendingHdrFor, verifySchemaParse, readAuthHeader,
    decodeUserId, jwtSign, jwtVerifyE, hne, if_true, if_false, ite_false, ite_true,
    reduceIte, decideStrategy, checkExistance, hvalid, hfind, truthy, hX,
    Bool.not_false, if_pos, verifyRecoveryCode, Option.getD_some]
  cases hc : consumeRecoveryCode X user.twoFA.recoveryCodes with
  | some rest => simp [ExpectedType.str, hvalid, hfind, hc]
  | none => simp [ExpectedType.str, hvalid, hfind, hc]

/-- C1. Claim: a Verify2FA request with a valid 2fa_pending token that
carries both of twoFACode and recoveryCode, or neither, is rejected with
BadRequestError and no tokens are issued. Evaluation at the failing inputs:
with both codes supplied the use case runs the TOTP branch only, succeeding
and issuing tokens when the TOTP code is right and failing with
UnauthorizedError, not BadRequestError, when it is wrong; with neither code
supplied decideStrategy does nothing and the use case issues a fresh token
pair without any verification at all. -/
theorem verify2FA_both_or_neither_codes_not_rejected :
    isOkRes (verify2FAExecute totpAll dbA pendingHdrA (some "123456") (some "RECOVCODE1") 5) = true
    ∧ resErr (verify2FAExecute totpNone dbA pendingHdrA (some "123456") (some "RECOVCODE1") 5)
        = some (.unauthorized "Wrong 2FA token.")
    ∧ verify2FAExecute totpAll dbA pendingHdrA none none 5
        = .ok (generateTokens uidA 5) dbA := by
  decide

/-- C2. Claim: after exactly 5 consecutive failed Verify2FA attempts the
lockedUntil field is set to a future timestamp, and any attempt while
lockedUntil lies in the future is rejected even for a correct code.
Evaluation: after five consecutive failed attempts the stored lockedUntil
is still null, a sixth attempt with a correct code succeeds, and a user
whose lockedUntil already lies in the future still verifies successfully
with a correct code, because no use case reads or writes lockedUntil. -/
theorem verify2FA_no_lockout_after_five_failures :
    ((findById (failedAttempt^[5] dbA) uidA).map (fun u => u.twoFA.lockedUntil) = some none)
    ∧ isOkRes (verify2FAExecute totpAll (failedAttempt^[5] dbA) pendingHdrA (some "123456") none 5) = true
    ∧ isOkRes (verify2FAExecute totpAll [userLocked] pendingHdrA (some "123456") none 5) = true := by
  decide

/-- C6. Claim: a successful Verify2FA via the recovery-code path applies
the same state updates as a successful TOTP verification, resetting
failed2FAAttempts to 0, setting last2FAVerifiedAt and setting is2FASetUp on
first success. Evaluation: the recovery path succeeds but leaves the stored
record with is2FASetUp still false, failed2FAAttempts still 3 and
last2FAVerifiedAt still unset, because verifyRecoveryCode only removes the
matched hash and saves. -/
theorem recovery_success_skips_state_updates :
    isOkRes (verify2FAExecute totpNone dbA pendingHdrA none (some "RECOVCODE1") 5) = true
    ∧ (findById (resDb (verify2FAExecute totpNone dbA pendingHdrA none (some "RECOVCODE1") 5)) uidA).map
        (fun u => (u.twoFA.is2FASetUp, u.twoFA.failed2FAAttempts, u.twoFA.last2FAVerifiedAt))
        = some (false, 3, none) := by
  decide

/-- C7. Claim: Setup2FA on a user whose is2FASetUp flag is already true
fails with BadRequestError and stores no new secret or recovery codes.
Evaluation: on a user with is2FASetUp true the setup use case succeeds,
overwrites the stored encrypted secret with the fresh one and appends ten
more hashed codes to the stored list; the is2FASetUp guard lives only in
Initiate2FAUseCase. -/
theorem setup2FA_ignores_is2FASetUp_flag :
    isOkRes (setup2FAExecute [userSetUp] pendingHdrA 5 "NEWSECRET" "iv2" ["NEWCODE001"]) = true
    ∧ (findById (resDb (setup2FAExecute [userSetUp] pendingHdrA 5 "NEWSECRET" "iv2" ["NEWCODE001"])) uidA).map
        (fun u => (u.twoFA.twoFASecret, u.twoFA.recoveryCodes.length))
        = some (some (encrypt2FASecret "NEWSECRET" "iv2"), 2) := by
  decide

/-- C8. Claim: Deinit2FA fails with BadRequestError when 2FA is already
disabled, and otherwise clears twoFASecret, recoveryCodes,
failed2FAAttempts, lockedUntil and is2FASetUp. Evaluation: on a user whose
2FA is fully inactive the deinit use case succeeds instead of rejecting,
and a leftover lockedUntil timestamp survives the clearing, because the
use case never reads the 2FA state and never touches lockedUntil. -/
theorem deinit2FA_ignores_inactive_and_lockedUntil :
    isOkRes (deinit2FAExecute [userDisabled] accessHdrA 5) = true
    ∧ (findById (resDb (deinit2FAExecute [userDisabled] accessHdrA 5)) uidA).map
        (fun u => u.twoFA.lockedUntil) = some (some 999) := by
  decide

/-- The three typed-token secrets are pairwise distinct configuration
entries. -/
theorem keyFor_injective (A B : ExpectedType) (hAB : A ≠ B) :
    keyFor A ≠ keyFor B := by
  cases A <;> cases B <;> first | exact absurd rfl hAB | decide

/-- Decoding a token of one of the three handled types succeeds before its
expiry when the expected type matches, for the two types decodeUserId has a
key for. -/
theorem decodeUserId_roundtrip (A : ExpectedType) (hA : A ≠ .refreshToken)
    (id : String) (now ttl : Nat) (h : 0 < ttl) :
    decodeUserId (signTyped A id now ttl) A now = .ok id := by
  have hne : ¬ (now + ttl ≤ now) := by omega
  cases A with
  | refreshToken => exact absurd rfl hA
  | accessToken =>
    simp [decodeUserId, signTyped, jwtSign, jwtVerifyE, keyFor, hne, ExpectedType.str]
  | pending2FA =>
    simp [decodeUserId, signTyped, jwtSign, jwtVerifyE, keyFor, hne, ExpectedType.str]

/-- Decoding a token signed for one type while expecting a different type
always throws UnauthorizedError: the keys differ, or the refresh branch has
no key at all. -/
theorem decodeUserId_crosstype (A B : ExpectedType) (hAB : A ≠ B)
    (id : String) (now ttl : Nat) :
    ∃ m, decodeUserId (signTyped A id now ttl) B now = .error (.unauthorized m) := by
  cases A <;> cases B <;> first | exact absurd rfl hAB | exact ⟨_, rfl⟩

/-- Decoding with expected type refresh-token always throws: the key
selection in decodeUserId leaves the secret empty for that type. -/
theorem decodeUserId_refresh_always_fails (t : SignedToken) (now : Nat) :
    decodeUserId t .refreshToken now
      = .error (.unauthorized ("Token verification error: " ++ jwtErrMsg .noKey)) := rfl

/-- C4 counterexample. Claim: for every type A among access-token,
refresh-token and 2fa_pending, decoding a token signed as A while expecting
A returns the subject id. At A equal to refresh-token with a genuine
refresh token, exactly as generateTokens signs it, decodeUserId throws
UnauthorizedError instead of returning the id, because its key selection
handles only access-token and 2fa_pending and leaves the secret empty. -/
theorem decode_refresh_roundtrip_fails :
    decodeUserId (signTyped .refreshToken "user1" 0 2592000) .refreshToken 5
      = .error (.unauthorized ("Token verification error: " ++ jwtErrMsg .noKey)) := by
  decide

/-- C4 amended. For A among access-token and 2fa_pending, decoding a token
signed as A while expecting A before expiry returns the subject id; decoding
a token signed as any type while expecting a different one of the three
types always throws UnauthorizedError regardless of signature validity; and
decoding any token whatsoever while expecting refresh-token always throws
UnauthorizedError. -/
theorem decode_roundtrip_amended (id : String) (now ttl : Nat) (h : 0 < ttl) :
    (decodeUserId (signTyped .accessToken id now ttl) .accessToken now = .ok id)
    ∧ (decodeUserId (signTyped .pending2FA id now ttl) .pending2FA now = .ok id)
    ∧ (∀ A B : ExpectedType, A ≠ B →
        ∃ m, decodeUserId (signTyped A id now ttl) B now = .error (.unauthorized m))
    ∧ (∀ t : SignedToken, decodeUserId t .refreshToken now
        = .error (.unauthorized ("Token verification error: " ++ jwtErrMsg .noKey))) :=
  ⟨decodeUserId_roundtrip .accessToken (by decide) id now ttl h,
   decodeUserId_roundtrip .pending2FA (by decide) id now ttl h,
   fun A B hAB => decodeUserId_crosstype A B hAB id now ttl,
   fun t => decodeUserId_refresh_always_fails t now⟩

/-- Witness for the amended C4 statement at a concrete subject, instant and
ttl. -/
theorem decode_roundtrip_amended_witness :
    0 < 300
    ∧ ((decodeUserId (signTyped .accessToken "user1" 7 300) .accessToken 7 = .ok "user1")
      ∧ (decodeUserId (signTyped .pending2FA "user1" 7 300) .pending2FA 7 = .ok "user1")
      ∧ (∀ A B : ExpectedType, A ≠ B →
          ∃ m, decodeUserId (signTyped A "user1" 7 300) B 7 = .error (.unauthorized m))
      ∧ (∀ t : SignedToken, decodeUserId t .refreshToken 7
          = .error (.unauthorized ("Token verification error: " ++ jwtErrMsg .noKey)))) :=
  ⟨by decide, decode_roundtrip_amended "user1" 7 300 (by decide)⟩

/-- C3 counterexample. Claim: a token issued for email verification is not
accepted by the ResetPassword operation. At a concrete store, the token
produced exactly as RegisterUseCase.sendVerificationEmail produces it is
accepted by ResetPasswordUseCase.execute, which resets the stored password,
because both email flows sign with jwt.eml and ResetPassword performs no
type check. -/
theorem resetPassword_accepts_email_verification_token :
    isOkRes (resetPasswordExecute dbA "hannah@test.eu" "newpassword1"
      (some { scheme := "Bearer", tokenPart := some (makeEmailVerificationToken uidA 0) }) 10) = true
    ∧ (findById (resDb (resetPasswordExecute dbA "hannah@test.eu" "newpassword1"
        (some { scheme := "Bearer", tokenPart := some (makeEmailVerificationToken uidA 0) }) 10)) uidA).map
        (fun u => u.auth.password) = some (bcryptHash "newpassword1") := by
  decide

/-- C3 amended. The access-token, refresh-token and 2fa_pending types are
signed with pairwise distinct secrets and decodeUserId rejects any of them
whose embedded type differs from the expected one; but the email
verification and password reset tokens are built identically, both signed
with jwt.eml and carrying no type claim, and ResetPassword accepts a token
issued for email verification. -/
theorem token_key_separation_amended (A B : ExpectedType) (hAB : A ≠ B)
    (id : String) (now ttl : Nat) :
    keyFor A ≠ keyFor B
    ∧ makeEmailVerificationToken id now = makeResetPasswordToken id now
    ∧ (∃ m, decodeUserId (signTyped A id now ttl) B now = .error (.unauthorized m))
    ∧ isOkRes (resetPasswordExecute dbA "hannah@test.eu" "resetviaemailtoken"
        (some { scheme := "Bearer", tokenPart := some (makeEmailVerificationToken uidA 0) }) 10) = true :=
  ⟨keyFor_injective A B hAB, rfl, decodeUserId_crosstype A B hAB id now ttl, by decide⟩

/-- Witness for the amended C3 statement at a concrete pair of types. -/
theorem token_key_separation_amended_witness :
    (ExpectedType.accessToken ≠ ExpectedType.refreshToken)
    ∧ (keyFor .accessToken ≠ keyFor .refreshToken
      ∧ makeEmailVerificationToken "user1" 7 = makeResetPasswordToken "user1" 7
      ∧ (∃ m, decodeUserId (signTyped .accessToken "user1" 7 300) .refreshToken 7
          = .error (.unauthorized m))
      ∧ isOkRes (resetPasswordExecute dbA "hannah@test.eu" "resetviaemailtoken"
          (some { scheme := "Bearer", tokenPart := some (makeEmailVerificationToken uidA 0) }) 10) = true) :=
  ⟨by decide, token_key_separation_amended .accessToken .refreshToken (by decide) "user1" 7 300⟩

/-- C5. Recovery codes are single-use: for a user whose stored hashes
contain the hash of code X exactly once, submitting X to Verify2FA under a
valid pending-2FA token succeeds, removes the matched hash and persists the
shrunken list in the store the response leaves behind, and submitting X
again against that store fails with UnauthorizedError while leaving the
store untouched. -/
theorem recovery_code_single_use (totp : String → String → Bool) (db : DB)
    (user : UserRec) (uid X : String) (t0 now : Nat)
    (hvalid : objectIdIsValid uid = true)
    (hfind : findById db uid = some user)
    (hX : X.isEmpty = false)
    (hexp : now < t0 + 720)
    (hcount : user.twoFA.recoveryCodes.count (bcryptHash X) = 1) :
    ∃ rest : List String,
      consumeRecoveryCode X user.twoFA.recoveryCodes = some rest
      ∧ rest.count (bcryptHash X) = 0
      ∧ verify2FAExecute totp db (pendingHdrFor uid t0) none (some X) now
          = .ok (generateTokens uid now) (saveUser db (setCodes user rest))
      ∧ findById (saveUser db (setCodes user rest)) uid = some (setCodes user rest)
      ∧ verify2FAExecute totp (saveUser db (setCodes user rest))
            (pendingHdrFor uid t0) none (some X) now
          = .err (.unauthorized "Invalid TOTP token or recovery code.")
              (saveUser db (setCodes user rest)) := by
  cases hc : consumeRecoveryCode X user.twoFA.recoveryCodes with
  | none =>
    rw [consumeRecoveryCode_eq_none_iff] at hc
    omega
  | some rest =>
    have hrc : rest.count (bcryptHash X) = 0 := by
      have := consumeRecoveryCode_count X user.twoFA.recoveryCodes rest hc
      omega
    have huid : (setCodes user rest).id = uid := findById_id db uid user hfind
    have hfind2 : findById (saveUser db (setCodes user rest)) uid
        = some (setCodes user rest) :=
      findById_saveUser db uid user (setCodes user rest) hfind huid
    refine ⟨rest, rfl, hrc, ?_, hfind2, ?_⟩
    · rw [verify2FAExecute_recovery totp db user uid X t0 now hvalid hfind hX hexp, hc]
    · rw [verify2FAExecute_recovery totp (saveUser db (setCodes user rest))
        (setCodes user rest) uid X t0 now hvalid hfind2 hX hexp]
      have hnone : consumeRecoveryCode X (setCodes user rest).twoFA.recoveryCodes = none := by
        rw [consumeRecoveryCode_eq_none_iff]
        exact hrc
      rw [hnone]

/-- Witness for C5 on the concrete scenario user and a concrete recovery
code. -/
theorem recovery_code_single_use_witness :
    (objectIdIsValid uidA = true
     ∧ findById dbA uidA = some userA
     ∧ "RECOVCODE1".isEmpty = false
     ∧ 5 < 0 + 720
     ∧ userA.twoFA.recoveryCodes.count (bcryptHash "RECOVCODE1") = 1)
    ∧ (∃ rest : List String,
        consumeRecoveryCode "RECOVCODE1" userA.twoFA.recoveryCodes = some rest
        ∧ rest.count (bcryptHash "RECOVCODE1") = 0
        ∧ verify2FAExecute totpNone dbA (pendingHdrFor uidA 0) none (some "RECOVCODE1") 5
            = .ok (generateTokens uidA 5) (saveUser dbA (setCodes userA rest))
        ∧ findById (saveUser dbA (setCodes userA rest)) uidA = some (setCodes userA rest)
        ∧ verify2FAExecute totpNone (saveUser dbA (setCodes userA rest))
              (pendingHdrFor uidA 0) none (some "RECOVCODE1") 5
            = .err (.unauthorized "Invalid TOTP token or recovery code.")
                (saveUser dbA (setCodes userA rest))) :=
  ⟨⟨by decide, by decide, by decide, by decide, by decide⟩,
   recovery_code_single_use totpNone dbA userA uidA "RECOVCODE1" 0 5
     (by decide) (by decide) (by decide) (by decide) (by decide)⟩

/-- C9. Login with a correct email and password pair returns only the
2fa_pending token when is2FASetUp is true and only a fresh access and
refresh pair when it is false. -/
theorem login_branches_on_is2FASetUp (db : DB) (user : UserRec)
    (email pw : String) (now : Nat)
    (hschema : loginSchemaParse email pw = .ok ())
    (hfind : findByEmail db email = some user)
    (hpw : bcryptCompare pw user.auth.password = true) :
    (user.twoFA.is2FASetUp = true →
      loginExecute db email pw now
        = .ok (.pending (jwtSign user.id (some "2fa_pending") .p2a now 420)))
    ∧ (user.twoFA.is2FASetUp = false →
      loginExecute db email pw now = .ok (.tokens (generateTokens user.id now))) := by
  constructor <;> intro hflag <;>
    simp [loginExecute, hschema, checkExistanceByEmail, hfind, hpw, hflag]

/-- Witness for C9, exercising the non-2FA branch on the scenario user and
the 2FA branch on the same user with the flag set. -/
theorem login_branches_on_is2FASetUp_witness :
    (loginSchemaParse "hannah@test.eu" "Das_einfaches_leben" = .ok ()
     ∧ findByEmail dbA "hannah@test.eu" = some userA
     ∧ bcryptCompare "Das_einfaches_leben" userA.auth.password = true
     ∧ findByEmail [userSetUp] "hannah@test.eu" = some userSetUp)
    ∧ (userA.twoFA.is2FASetUp = false →
        loginExecute dbA "hannah@test.eu" "Das_einfaches_leben" 7
          = .ok (.tokens (generateTokens userA.id 7)))
    ∧ (userSetUp.twoFA.is2FASetUp = true →
        loginExecute [userSetUp] "hannah@test.eu" "Das_einfaches_leben" 7
          = .ok (.pending (jwtSign userSetUp.id (some "2fa_pending") .p2a 7 420))) :=
  ⟨⟨by decide, by decide, by decide, by decide⟩,
   (login_branches_on_is2FASetUp dbA userA "hannah@test.eu" "Das_einfaches_leben" 7
     (by decide) (by decide) (by decide)).2,
   (login_branches_on_is2FASetUp [userSetUp] userSetUp "hannah@test.eu" "Das_einfaches_leben" 7
     (by decide) (by decide) (by decide)).1⟩

/-- C10. A failed TOTP verification leaves the store exactly as it was: the
failed2FAAttempts increment happens only on the in-memory object and the
UnauthorizedError is thrown before any save, so the result carries the
unchanged store and the persisted counter is identical before and after the
attempt. -/
theorem failed_totp_attempt_not_persisted (totp : String → String → Bool)
    (db : DB) (user : UserRec) (uid code : String) (enc : TwoFASecret) (now : Nat)
    (hvalid : objectIdIsValid uid = true)
    (hfind : findById db uid = some user)
    (hsec : user.twoFA.twoFASecret = some enc)
    (hwrong : totp (decrypt2FASecret enc) code = false) :
    verify2FACode totp db code uid now = .err (.unauthorized "Wrong 2FA token.") db := by
  simp [verify2FACode, checkExistance, hvalid, hfind, getDecryptedSecret, hsec, hwrong]

/-- Witness for C10 on the concrete scenario user with a wrong code. -/
theorem failed_totp_attempt_not_persisted_witness :
    (objectIdIsValid uidA = true
     ∧ findById dbA uidA = some userA
     ∧ userA.twoFA.twoFASecret = some secretEncA
     ∧ totpNone (decrypt2FASecret secretEncA) "000000" = false)
    ∧ verify2FACode totpNone dbA "000000" uidA 5
        = .err (.unauthorized "Wrong 2FA token.") dbA :=
  ⟨⟨by decide, by decide, by decide, by decide⟩,
   failed_totp_attempt_not_persisted totpNone dbA userA uidA "000000" secretEncA 5
     (by decide) (by decide) (by decide) (by decide)⟩

end Euromedia
